import Mathlib

/-!
# ragdemo: chunk, store, retrieve, answer

A shallow embedding of `src/ragdemo/main.go` and `src/ragdemo/ollama/ollama.go`.

The two files are glue around collaborators that live outside the repository
(the file system, the text splitter, the Qdrant vector store, the agent
executor).  Each collaborator is a field of `World`: a deterministic function
of its arguments and of the collaborator state `σ`, returning its Go result and
the next state.  Every embedded function returns, besides its Go result, the
state it leaves and the list of collaborator calls it made, in order.

Go's `(value, error)` pairs are `Except GoError value`; in every source path
that returns a non-nil error the value returned with it is the zero value.
`float32` scores, thresholds and temperatures are rationals: the source only
passes them on or orders them.
-/

namespace RagDemo

/-! ## Data -/

/-- A Go `error`, observed through its `Error()` text. -/
structure GoError where
  Error : String
deriving DecidableEq, Repr

/-- The `schema.Document` record: text, metadata and similarity score. -/
structure Document where
  PageContent : String
  Metadata : List (String × String) := []
  Score : ℚ := 0
deriving DecidableEq

/-- The handle `os.Open` returns. -/
structure File where
  name : String
deriving DecidableEq, Repr

/-- The `vectorstores.Options` record, restricted to the field the source sets. -/
structure Options where
  ScoreThreshold : ℚ := 0
deriving DecidableEq

/-- A functional option for a vector store search (`vectorstores.Option`). -/
abbrev SearchOption := Options → Options

/-- The option `vectorstores.WithScoreThreshold`. -/
def WithScoreThreshold (scoreThreshold : ℚ) : SearchOption :=
  fun o => { o with ScoreThreshold := scoreThreshold }

/-- The options record obtained by applying each option, in order, to the zero record. -/
def applyOptions (options : List SearchOption) : Options :=
  options.foldl (fun o f => f o) {}

/-- The kind of a chat message; `AddAIMessage` records kind `AI`. -/
inductive ChatMessageType where
  | AI
  | Human
  | System
deriving DecidableEq, Repr

/-- One entry of a chat history. -/
structure ChatMessage where
  GetType : ChatMessageType
  Content : String
deriving DecidableEq, Repr

/-- The in-memory chat history of `memory.NewChatMessageHistory`. -/
structure ChatMessageHistory where
  messages : List ChatMessage
deriving DecidableEq, Repr

/-- A fresh, empty chat history. -/
def NewChatMessageHistory : ChatMessageHistory := ⟨[]⟩

/-- Appends one AI message to the history. -/
def ChatMessageHistory.AddAIMessage (h : ChatMessageHistory) (text : String) :
    ChatMessageHistory :=
  ⟨h.messages ++ [⟨ChatMessageType.AI, text⟩]⟩

/-- The four stages of the pipeline in `main`. -/
inductive Stage where
  | TextToChunks
  | StoreDocs
  | UseRetriaver
  | GetAnswer
deriving DecidableEq, Repr

/-- A collaborator call, with the arguments it was issued with.  `enter` is a
ghost event: `main` records it when it calls a stage. -/
inductive Event where
  | osOpen (name : String)
  | LoadAndSplit (file : File) (chunkSize chunkOverlap : Int)
  | AddDocuments (docs : List Document)
  | SimilaritySearch (query : String) (numDocuments : Int) (opts : Options)
  | Run (memory : List ChatMessage) (input : String) (temperature : ℚ)
  | enter (stage : Stage)
deriving DecidableEq

/-- The collaborators of the program, over a collaborator state `σ`. -/
structure World (σ : Type) where
  /-- The call `os.Open(name)`. -/
  osOpen : String → σ → Except GoError File × σ
  /-- The call `documentloaders.NewText(file).LoadAndSplit(ctx, split)` with the
  splitter's `ChunkSize` and `ChunkOverlap`. -/
  LoadAndSplit : File → Int → Int → σ → Except GoError (List Document) × σ
  /-- The call `store.AddDocuments(ctx, docs)`; the ids it returns are discarded by the source. -/
  AddDocuments : List Document → σ → Except GoError (List String) × σ
  /-- The call `store.SimilaritySearch(ctx, query, numDocuments, options...)`. -/
  SimilaritySearch : String → Int → Options → σ → Except GoError (List Document) × σ
  /-- The call `chains.Run(ctx, executor, input, WithTemperature(t))` on the executor
  `GetAnswer` builds (conversational agent over the model, the no-op option of
  `NoOpOption`), whose memory is a conversation buffer over the given chat history. -/
  Run : List ChatMessage → String → ℚ → σ → Except GoError String × σ

/-- What a call of an embedded function yields: its Go result, the collaborator
state it leaves, and the collaborator calls it made. -/
structure Res (σ α : Type) where
  val : α
  st : σ
  log : List Event

/-! ## `main.go` -/

/-- The constant `prompt` of `main.go`. -/
def prompt : String := "请介绍一下这篇文档"

/-- The function `TextToChunks`: open the file, configure the splitter, load and split. -/
def TextToChunks {σ : Type} (w : World σ) (dirFile : String) (chunkSize chunkOverlap : Int)
    (s : σ) : Res σ (Except GoError (List Document)) :=
  match w.osOpen dirFile s with
  | (Except.error err, s1) => ⟨Except.error err, s1, [Event.osOpen dirFile]⟩
  | (Except.ok file, s1) =>
    match w.LoadAndSplit file chunkSize chunkOverlap s1 with
    | (Except.error err, s2) =>
      ⟨Except.error err, s2, [Event.osOpen dirFile, Event.LoadAndSplit file chunkSize chunkOverlap]⟩
    | (Except.ok docs, s2) =>
      ⟨Except.ok docs, s2, [Event.osOpen dirFile, Event.LoadAndSplit file chunkSize chunkOverlap]⟩

/-! ## `ollama/ollama.go` -/

/-- The function `StoreDocs`: one `AddDocuments` call when the list is non-empty. -/
def StoreDocs {σ : Type} (w : World σ) (docs : List Document) (s : σ) :
    Res σ (Option GoError) :=
  if docs.length > 0 then
    match w.AddDocuments docs s with
    | (Except.error err, s1) => ⟨some err, s1, [Event.AddDocuments docs]⟩
    | (Except.ok _, s1) => ⟨none, s1, [Event.AddDocuments docs]⟩
  else
    ⟨none, s, []⟩

/-- The score threshold literal `0.80` of `UseRetriaver`. -/
def scoreThreshold : ℚ := 0.80

/-- The retriever `vectorstores.ToRetriever` builds: a store, a document count and options. -/
structure Retriever where
  numDocs : Int
  options : List SearchOption

/-- The function `vectorstores.ToRetriever`, the store being the world. -/
def ToRetriever (numDocuments : Int) (options : List SearchOption) : Retriever :=
  ⟨numDocuments, options⟩

/-- The method `GetRelevantDocuments`: one similarity search with the retriever's
document count and options. -/
def Retriever.GetRelevantDocuments {σ : Type} (r : Retriever) (w : World σ) (query : String)
    (s : σ) : Res σ (Except GoError (List Document)) :=
  let opts := applyOptions r.options
  match w.SimilaritySearch query r.numDocs opts s with
  | (res, s1) => ⟨res, s1, [Event.SimilaritySearch query r.numDocs opts]⟩

/-- The result of `fmt.Errorf("检索文档失败: %v", err)`. -/
def retrievalError (err : GoError) : GoError :=
  ⟨"检索文档失败: " ++ err.Error⟩

/-- The function `UseRetriaver`. -/
def UseRetriaver {σ : Type} (w : World σ) (prompt : String) (topk : Int) (s : σ) :
    Res σ (Except GoError (List Document)) :=
  let optionsVector := [WithScoreThreshold scoreThreshold]
  let retriever := ToRetriever topk optionsVector
  let r := retriever.GetRelevantDocuments w prompt s
  match r.val with
  | Except.error err => ⟨Except.error (retrievalError err), r.st, r.log⟩
  | Except.ok docRetrieved => ⟨Except.ok docRetrieved, r.st, r.log⟩

/-- The chat history `GetAnswer` builds from the retrieved documents. -/
def assembleHistory (docRetrieved : List Document) : ChatMessageHistory :=
  docRetrieved.foldl (fun history doc => history.AddAIMessage doc.PageContent)
    NewChatMessageHistory

/-- The temperature literal `0.8` of `GetAnswer`. -/
def temperature : ℚ := 0.8

/-- The function `GetAnswer`. -/
def GetAnswer {σ : Type} (w : World σ) (docRetrieved : List Document) (prompt : String)
    (s : σ) : Res σ (Except GoError String) :=
  let history := assembleHistory docRetrieved
  match w.Run history.messages prompt temperature s with
  | (Except.error err, s1) =>
    ⟨Except.error err, s1, [Event.Run history.messages prompt temperature]⟩
  | (Except.ok res, s1) =>
    ⟨Except.ok res, s1, [Event.Run history.messages prompt temperature]⟩

/-! ## `main` -/

/-- How a run of `main` ends: by `panic(err)`, or by printing the answer. -/
inductive Outcome where
  | panic (err : GoError)
  | printed (answer : String)
deriving DecidableEq, Repr

/-- The function `main`.  The error of `TextToChunks` is bound to `_`; on that
error `docs` is the nil slice.  The constructors `GetStore` and
`GetOllamaMistral` build the clients that the world stands for. -/
def main {σ : Type} (w : World σ) (s : σ) : Res σ Outcome :=
  let r1 := TextToChunks w "./quantstudy.pdf" 1000 500 s
  let docs := match r1.val with
    | Except.ok docs => docs
    | Except.error _ => []
  let log1 := Event.enter Stage.TextToChunks :: r1.log
  let r2 := StoreDocs w docs r1.st
  let log2 := log1 ++ Event.enter Stage.StoreDocs :: r2.log
  match r2.val with
  | some err => ⟨Outcome.panic err, r2.st, log2⟩
  | none =>
    let r3 := UseRetriaver w prompt 5 r2.st
    let log3 := log2 ++ Event.enter Stage.UseRetriaver :: r3.log
    match r3.val with
    | Except.error err => ⟨Outcome.panic err, r3.st, log3⟩
    | Except.ok rst =>
      let r4 := GetAnswer w rst prompt r3.st
      let log4 := log3 ++ Event.enter Stage.GetAnswer :: r4.log
      match r4.val with
      | Except.error err => ⟨Outcome.panic err, r4.st, log4⟩
      | Except.ok answer => ⟨Outcome.printed answer, r4.st, log4⟩

/-! ## Roles of the spec's conversation memory -/

/-- The three roles the spec's data model gives an entry of the conversation
memory. -/
inductive Role where
  | context
  | user
  | assistant
deriving DecidableEq, Repr

/-- The role a message kind of the source stands for: an AI message is the
assistant's, a human message the user's.  No kind stands for `context`. -/
def ChatMessageType.role : ChatMessageType → Option Role
  | ChatMessageType.AI => some Role.assistant
  | ChatMessageType.Human => some Role.user
  | ChatMessageType.System => none

/-- The entries of a chat history that carry the role `context`. -/
def contextEntries (messages : List ChatMessage) : List ChatMessage :=
  messages.filter (fun m => decide (m.GetType.role = some Role.context))

/-! ## Concrete worlds -/

/-- An example answer of a store: the candidates of `cands` scoring at least the
requested threshold, cut to the requested document count. -/
def searchRanking (cands : List Document) (numDocuments : Int) (opts : Options) :
    List Document :=
  (cands.filter (fun d => decide (opts.ScoreThreshold ≤ d.Score))).take numDocuments.toNat

/-- A stateless world: every collaborator answers with a fixed result, the
search with a fixed function of the requested count and options. -/
def fixedWorld (openRes : Except GoError File) (splitRes : Except GoError (List Document))
    (addRes : Except GoError (List String))
    (search : Int → Options → Except GoError (List Document))
    (runRes : Except GoError String) : World Unit where
  osOpen := fun _ s => (openRes, s)
  LoadAndSplit := fun _ _ _ s => (splitRes, s)
  AddDocuments := fun _ s => (addRes, s)
  SimilaritySearch := fun _ n opts s => (search n opts, s)
  Run := fun _ _ _ s => (runRes, s)

/-- A document with the given text and score. -/
def scored (text : String) (score : ℚ) : Document :=
  { PageContent := text, Score := score }

/-- Ten stored records in descending score order. -/
def tenRecords : List Document :=
  [scored "r0" 0.95, scored "r1" 0.90, scored "r2" 0.85, scored "r3" 0.70,
   scored "r4" 0.65, scored "r5" 0.60, scored "r6" 0.55, scored "r7" 0.50,
   scored "r8" 0.45, scored "r9" 0.40]

/-- A world whose store searches `tenRecords`, honouring count and threshold. -/
def tenRecordWorld : World Unit :=
  fixedWorld (Except.ok ⟨"doc.txt"⟩) (Except.ok [scored "A B C D" 0]) (Except.ok ["id0"])
    (fun n opts => Except.ok (searchRanking tenRecords n opts)) (Except.ok "answer")

/-- A world whose store searches `tenRecords` honouring the requested count
only: it returns the first `numDocuments` records whatever the threshold. -/
def countOnlyWorld : World Unit :=
  fixedWorld (Except.ok ⟨"doc.txt"⟩) (Except.ok [scored "A B C D" 0]) (Except.ok ["id0"])
    (fun n _ => Except.ok (tenRecords.take n.toNat)) (Except.ok "answer")

/-- A world whose store answers every search with all of `tenRecords`. -/
def allRecordsWorld : World Unit :=
  fixedWorld (Except.ok ⟨"doc.txt"⟩) (Except.ok [scored "A B C D" 0]) (Except.ok ["id0"])
    (fun _ _ => Except.ok tenRecords) (Except.ok "answer")

/-- A world in which the file opens and the splitter returns one chunk, whatever
its configuration. -/
def splitWorld : World Unit :=
  fixedWorld (Except.ok ⟨"doc.txt"⟩) (Except.ok [scored "A B C D" 0]) (Except.ok ["id0"])
    (fun _ _ => Except.ok []) (Except.ok "answer")

/-- A world in which the file cannot be opened and every other collaborator succeeds. -/
def missingFileWorld : World Unit :=
  fixedWorld (Except.error ⟨"open ./quantstudy.pdf: no such file or directory"⟩)
    (Except.ok []) (Except.ok ["id0"])
    (fun _ _ => Except.ok [scored "r0" 0.95]) (Except.ok "answer")

/-- A world whose store fails every search and every insert. -/
def storeDownWorld : World Unit :=
  fixedWorld (Except.ok ⟨"doc.txt"⟩) (Except.ok [scored "A B C D" 0])
    (Except.error ⟨"connection refused"⟩)
    (fun _ _ => Except.error ⟨"connection refused"⟩) (Except.ok "answer")

/-- A world whose chain run completes with the empty string. -/
def emptyAnswerWorld : World Unit :=
  fixedWorld (Except.ok ⟨"doc.txt"⟩) (Except.ok [scored "A B C D" 0]) (Except.ok ["id0"])
    (fun _ _ => Except.ok [scored "r0" 0.95]) (Except.ok "")

/-! ## Shared lemmas -/

theorem applyOptions_withScoreThreshold (t : ℚ) :
    applyOptions [WithScoreThreshold t] = ⟨t⟩ := rfl

theorem UseRetriaver_val_eq {σ : Type} (w : World σ) (query : String) (topk : Int) (s : σ) :
    (UseRetriaver w query topk s).val =
      match (w.SimilaritySearch query topk ⟨scoreThreshold⟩ s).1 with
      | Except.error err => Except.error (retrievalError err)
      | Except.ok docs => Except.ok docs := by
  simp only [UseRetriaver, Retriever.GetRelevantDocuments, ToRetriever,
    applyOptions_withScoreThreshold]
  cases h : (w.SimilaritySearch query topk ⟨scoreThreshold⟩ s).1 <;> simp [h]

theorem UseRetriaver_log_eq {σ : Type} (w : World σ) (query : String) (topk : Int) (s : σ) :
    (UseRetriaver w query topk s).log =
      [Event.SimilaritySearch query topk ⟨scoreThreshold⟩] := by
  simp only [UseRetriaver, Retriever.GetRelevantDocuments, ToRetriever,
    applyOptions_withScoreThreshold]
  cases h : (w.SimilaritySearch query topk ⟨scoreThreshold⟩ s).1 <;> simp [h]

theorem foldl_AddAIMessage (docs : List Document) (h : ChatMessageHistory) :
    (docs.foldl (fun history doc => history.AddAIMessage doc.PageContent) h).messages =
      h.messages ++ docs.map (fun doc => ⟨ChatMessageType.AI, doc.PageContent⟩) := by
  induction docs generalizing h with
  | nil => simp
  | cons d ds ih =>
    rw [List.foldl_cons, ih]
    simp [ChatMessageHistory.AddAIMessage]

theorem assembleHistory_messages (docs : List Document) :
    (assembleHistory docs).messages =
      docs.map (fun doc => ⟨ChatMessageType.AI, doc.PageContent⟩) := by
  simp [assembleHistory, foldl_AddAIMessage, NewChatMessageHistory]

theorem GetAnswer_val_eq {σ : Type} (w : World σ) (docs : List Document) (input : String)
    (s : σ) :
    (GetAnswer w docs input s).val =
      (w.Run (assembleHistory docs).messages input temperature s).1 := by
  simp only [GetAnswer]
  rcases h : w.Run (assembleHistory docs).messages input temperature s with ⟨r, s1⟩
  cases r <;> simp

theorem GetAnswer_log_eq {σ : Type} (w : World σ) (docs : List Document) (input : String)
    (s : σ) :
    (GetAnswer w docs input s).log =
      [Event.Run (assembleHistory docs).messages input temperature] := by
  simp only [GetAnswer]
  rcases h : w.Run (assembleHistory docs).messages input temperature s with ⟨r, s1⟩
  cases r <;> simp

/-! ## Retrieval -/

/-- Counterexample to C1: on a store that answers every search with all ten
records, `UseRetriaver` with `topk = 2` succeeds with the ten records: one of
them scores below `0.80`, and there are more than two. -/
theorem UseRetriaver_returns_low_scores_and_excess :
    (UseRetriaver allRecordsWorld "q" 2 ()).val = Except.ok tenRecords ∧
      (∃ d ∈ tenRecords, d.Score < scoreThreshold) ∧
      (2 : Int) < (tenRecords.length : Int) := by
  refine ⟨?_, ⟨scored "r9" 0.40, ?_, ?_⟩, ?_⟩
  · rw [UseRetriaver_val_eq]
    rfl
  · simp [tenRecords]
  · norm_num [scored, scoreThreshold]
  · simp [tenRecords]

/-- Claim C1, amended.  For every store, query and `topk`, a successful
`UseRetriaver` has issued exactly one search, for score threshold `0.80` and at
most `topk` documents, and returns exactly the documents that search returned:
it removes no document below the threshold and cuts nothing itself, so the
scores and the number of the returned documents are those of the store's answer. -/
theorem UseRetriaver_returns_store_answer {σ : Type} (w : World σ) (query : String)
    (topk : Int) (s : σ) (docs : List Document)
    (hok : (UseRetriaver w query topk s).val = Except.ok docs) :
    (w.SimilaritySearch query topk ⟨scoreThreshold⟩ s).1 = Except.ok docs ∧
      (UseRetriaver w query topk s).log
        = [Event.SimilaritySearch query topk ⟨scoreThreshold⟩] := by
  refine ⟨?_, UseRetriaver_log_eq w query topk s⟩
  rw [UseRetriaver_val_eq] at hok
  cases hs : (w.SimilaritySearch query topk ⟨scoreThreshold⟩ s).1 with
  | error err => simp [hs] at hok
  | ok found =>
    simp only [hs] at hok
    exact hok

/-- Witness of amended C1: on the ten-record store that honours threshold and
count, `topk = 5` gives the three records the store's search returned. -/
theorem UseRetriaver_returns_store_answer_witness :
    (UseRetriaver tenRecordWorld "q" 5 ()).val
        = Except.ok [scored "r0" 0.95, scored "r1" 0.90, scored "r2" 0.85] ∧
      (tenRecordWorld.SimilaritySearch "q" 5 ⟨scoreThreshold⟩ ()).1
        = Except.ok [scored "r0" 0.95, scored "r1" 0.90, scored "r2" 0.85] := by
  have hval : (UseRetriaver tenRecordWorld "q" 5 ()).val
      = Except.ok [scored "r0" 0.95, scored "r1" 0.90, scored "r2" 0.85] := by
    rw [UseRetriaver_val_eq]
    simp only [tenRecordWorld, fixedWorld, searchRanking, tenRecords, scored, scoreThreshold]
    norm_num [List.filter, List.take]
  exact ⟨hval, (UseRetriaver_returns_store_answer tenRecordWorld "q" 5 () _ hval).1⟩

theorem eq_take_filter_iff (p : Document → Bool) (cands : List Document) (k : Nat) :
    cands = (cands.filter p).take k ↔ (∀ d ∈ cands, p d = true) ∧ cands.length ≤ k := by
  constructor
  · intro h
    have hlen : cands.length = min k (cands.filter p).length := by
      conv_lhs => rw [h]
      exact List.length_take k (cands.filter p)
    have hle : (cands.filter p).length ≤ cands.length := List.length_filter_le p cands
    have hfl : (cands.filter p).length = cands.length := by omega
    exact ⟨List.filter_length_eq_length.mp hfl, by omega⟩
  · rintro ⟨hall, hlen⟩
    rw [List.filter_eq_self.mpr hall, List.take_of_length_le hlen]

/-- Counterexample to C2: the ten records are in descending score order; on a
store that cuts them to the requested count, `UseRetriaver` with `topk = 4`
returns the first four, the record scored `0.70` among them, which is not the
records scoring at least `0.80` cut to four, neither of the ten records nor of
the four returned. -/
theorem UseRetriaver_keeps_candidate_below_threshold :
    tenRecords.Pairwise (fun a b => b.Score ≤ a.Score) ∧
      (UseRetriaver countOnlyWorld "q" 4 ()).val
        = Except.ok [scored "r0" 0.95, scored "r1" 0.90, scored "r2" 0.85, scored "r3" 0.70] ∧
      (UseRetriaver countOnlyWorld "q" 4 ()).val
        ≠ Except.ok ((tenRecords.filter (fun d => decide (scoreThreshold ≤ d.Score))).take 4) ∧
      (UseRetriaver countOnlyWorld "q" 4 ()).val
        ≠ Except.ok
          (([scored "r0" 0.95, scored "r1" 0.90, scored "r2" 0.85, scored "r3" 0.70].filter
            (fun d => decide (scoreThreshold ≤ d.Score))).take 4) := by
  have hval : (UseRetriaver countOnlyWorld "q" 4 ()).val
      = Except.ok [scored "r0" 0.95, scored "r1" 0.90, scored "r2" 0.85, scored "r3" 0.70] := by
    rw [UseRetriaver_val_eq]
    rfl
  refine ⟨?_, hval, ?_, ?_⟩
  · simp only [tenRecords, scored]
    norm_num
  · rw [hval]
    simp only [tenRecords, scored, scoreThreshold]
    norm_num [List.filter, List.take]
  · rw [hval]
    simp only [scored, scoreThreshold]
    norm_num [List.filter, List.take]

/-- Claim C2, amended.  For every candidate list the store's search returns for
threshold `0.80` and count `topk`, `UseRetriaver` returns exactly that list, in
the same order, discarding and truncating nothing itself; the result is the
candidates scoring at least `0.80` cut to the first `topk` exactly when the
store's answer already holds no candidate below `0.80` and at most `topk`
candidates. -/
theorem UseRetriaver_keeps_candidates {σ : Type} (w : World σ) (cands : List Document)
    (query : String) (topk : Int) (s : σ)
    (hsearch : (w.SimilaritySearch query topk ⟨scoreThreshold⟩ s).1 = Except.ok cands) :
    (UseRetriaver w query topk s).val = Except.ok cands ∧
      ((UseRetriaver w query topk s).val
          = Except.ok ((cands.filter (fun d => decide (scoreThreshold ≤ d.Score))).take
              topk.toNat) ↔
        (∀ d ∈ cands, scoreThreshold ≤ d.Score) ∧ cands.length ≤ topk.toNat) := by
  have hval : (UseRetriaver w query topk s).val = Except.ok cands := by
    rw [UseRetriaver_val_eq, hsearch]
  refine ⟨hval, ?_⟩
  rw [hval]
  constructor
  · intro h
    have h2 := (eq_take_filter_iff _ cands topk.toNat).mp (Except.ok.inj h)
    exact ⟨fun d hd => by simpa using h2.1 d hd, h2.2⟩
  · rintro ⟨hall, hlen⟩
    exact congrArg Except.ok
      ((eq_take_filter_iff _ cands topk.toNat).mpr ⟨fun d hd => by simpa using hall d hd, hlen⟩)

/-- Witness of amended C2: on the store of ten records scored
`0.95, 0.90, 0.85, 0.70, ...` whose search, asked for threshold `0.80` and two
documents, returns the records scored `0.95, 0.90`, the result is exactly
those two, in that order. -/
theorem UseRetriaver_keeps_candidates_witness :
    (UseRetriaver tenRecordWorld "q" 2 ()).val
      = Except.ok [scored "r0" 0.95, scored "r1" 0.90] := by
  have hsearch : (tenRecordWorld.SimilaritySearch "q" 2 ⟨scoreThreshold⟩ ()).1
      = Except.ok [scored "r0" 0.95, scored "r1" 0.90] := by
    simp only [tenRecordWorld, fixedWorld, searchRanking, tenRecords, scored, scoreThreshold]
    norm_num [List.filter, List.take]
  exact (UseRetriaver_keeps_candidates tenRecordWorld _ "q" 2 () hsearch).1

/-! ## Context assembly -/

/-- Counterexample to C3: for one retrieved document the assembled history
holds one entry, of kind AI, whose role is the assistant's; the number of
`context`-role entries is zero, not one. -/
theorem GetAnswer_memory_no_context_entry :
    (assembleHistory [scored "r0" 0.95]).messages = [⟨ChatMessageType.AI, "r0"⟩] ∧
      (contextEntries (assembleHistory [scored "r0" 0.95]).messages).length
        ≠ [scored "r0" 0.95].length := by
  rw [assembleHistory_messages]
  decide

/-- Claim C3, amended.  For every list of retrieved documents, the chat history
that `GetAnswer` hands to the chain run holds exactly one entry per document,
each recorded as an AI message (the assistant's role, not a separate `context`
role), in the order received, the i-th entry carrying the i-th document's
`PageContent` unchanged; nothing is merged or cut, and for the empty list the
history is empty. -/
theorem GetAnswer_memory_entries {σ : Type} (w : World σ) (docRetrieved : List Document)
    (input : String) (s : σ) :
    (GetAnswer w docRetrieved input s).log =
        [Event.Run (docRetrieved.map (fun doc => ⟨ChatMessageType.AI, doc.PageContent⟩))
          input temperature] ∧
      (assembleHistory docRetrieved).messages.length = docRetrieved.length ∧
      (assembleHistory docRetrieved).messages.map ChatMessage.Content
        = docRetrieved.map Document.PageContent ∧
      (∀ i : Nat, (assembleHistory docRetrieved).messages[i]?
        = (docRetrieved[i]?).map (fun doc => ⟨ChatMessageType.AI, doc.PageContent⟩)) ∧
      (∀ m ∈ (assembleHistory docRetrieved).messages,
        m.GetType.role = some Role.assistant) ∧
      contextEntries (assembleHistory docRetrieved).messages = [] ∧
      (GetAnswer w [] input s).log = [Event.Run [] input temperature] := by
  have hrole : ∀ m ∈ (assembleHistory docRetrieved).messages,
      m.GetType.role = some Role.assistant := by
    intro m hm
    rw [assembleHistory_messages] at hm
    obtain ⟨d, -, rfl⟩ := List.mem_map.mp hm
    rfl
  refine ⟨?_, ?_, ?_, ?_, hrole, ?_, ?_⟩
  · rw [GetAnswer_log_eq, assembleHistory_messages]
  · simp [assembleHistory_messages]
  · simp [assembleHistory_messages]
  · intro i
    rw [assembleHistory_messages, List.getElem?_map]
  · rw [contextEntries, List.filter_eq_nil_iff]
    intro m hm
    simp [hrole m hm]
  · rw [GetAnswer_log_eq, assembleHistory_messages]
    rfl

/-! ## Chunking -/

/-- Counterexample to C5: with `chunkSize = 2` and `chunkOverlap = 5`, on a
world where the file opens and the splitter returns a chunk, `TextToChunks` opens
the file, runs the splitter and returns the chunk: it is not the case that it
fails having made no call. -/
theorem TextToChunks_overlap_ge_size_not_rejected :
    ¬ ((∃ err, (TextToChunks splitWorld "doc.txt" 2 5 ()).val = Except.error err) ∧
        (TextToChunks splitWorld "doc.txt" 2 5 ()).log = []) := by
  simp [TextToChunks, splitWorld, fixedWorld]

/-- Claim C5, amended.  `TextToChunks` makes no check of `chunkOverlap` against
`chunkSize`: for every pair of values its first call opens the file; when
opening fails it returns that error and makes no further call; otherwise it runs
the loader once, the splitter configured with exactly the given `chunkSize` and
`chunkOverlap`, and returns the loader's chunks or error unchanged. -/
theorem TextToChunks_no_config_check {σ : Type} (w : World σ) (dirFile : String)
    (chunkSize chunkOverlap : Int) (s : σ) :
    (TextToChunks w dirFile chunkSize chunkOverlap s).log.head? = some (Event.osOpen dirFile) ∧
      (∀ err s1, w.osOpen dirFile s = (Except.error err, s1) →
        TextToChunks w dirFile chunkSize chunkOverlap s
          = ⟨Except.error err, s1, [Event.osOpen dirFile]⟩) ∧
      (∀ file s1, w.osOpen dirFile s = (Except.ok file, s1) →
        (TextToChunks w dirFile chunkSize chunkOverlap s).val
            = (w.LoadAndSplit file chunkSize chunkOverlap s1).1 ∧
          (TextToChunks w dirFile chunkSize chunkOverlap s).st
            = (w.LoadAndSplit file chunkSize chunkOverlap s1).2 ∧
          (TextToChunks w dirFile chunkSize chunkOverlap s).log
            = [Event.osOpen dirFile, Event.LoadAndSplit file chunkSize chunkOverlap]) := by
  refine ⟨?_, ?_, ?_⟩
  · simp only [TextToChunks]
    rcases ho : w.osOpen dirFile s with ⟨r, s1⟩
    cases r with
    | error err => simp
    | ok file =>
      rcases hl : w.LoadAndSplit file chunkSize chunkOverlap s1 with ⟨r2, s2⟩
      cases r2 <;> simp [hl]
  · intro err s1 ho
    simp [TextToChunks, ho]
  · intro file s1 ho
    simp only [TextToChunks, ho]
    rcases hl : w.LoadAndSplit file chunkSize chunkOverlap s1 with ⟨r2, s2⟩
    cases r2 <;> simp

/-- Witness of amended C5: with `chunkSize = 2`, `chunkOverlap = 5` the file is
opened, the splitter is run with `2` and `5`, and its chunk is returned. -/
theorem TextToChunks_no_config_check_witness :
    (TextToChunks splitWorld "doc.txt" 2 5 ()).val = Except.ok [scored "A B C D" 0] ∧
      (TextToChunks splitWorld "doc.txt" 2 5 ()).log
        = [Event.osOpen "doc.txt", Event.LoadAndSplit ⟨"doc.txt"⟩ 2 5] := by
  have h := (TextToChunks_no_config_check splitWorld "doc.txt" 2 5 ()).2.2 ⟨"doc.txt"⟩ () rfl
  exact ⟨h.1, h.2.2⟩

/-! ## Storing -/

/-- Claim C10.  For the empty (or nil) document list `StoreDocs` returns nil,
makes no call and leaves the store as it was; for every non-empty list it makes
exactly one `AddDocuments` call, with the whole list, and returns nil when that
call succeeds and the call's own error, unchanged, when it fails. -/
theorem StoreDocs_one_insert {σ : Type} (w : World σ) (docs : List Document) (s : σ) :
    (docs = [] → StoreDocs w docs s = ⟨none, s, []⟩) ∧
      (docs ≠ [] →
        (StoreDocs w docs s).log = [Event.AddDocuments docs] ∧
        (StoreDocs w docs s).st = (w.AddDocuments docs s).2 ∧
        (∀ ids, (w.AddDocuments docs s).1 = Except.ok ids → (StoreDocs w docs s).val = none) ∧
        (∀ err, (w.AddDocuments docs s).1 = Except.error err →
          (StoreDocs w docs s).val = some err)) := by
  constructor
  · intro h
    subst h
    simp [StoreDocs]
  · intro h
    have hlen : docs.length > 0 := List.length_pos.mpr h
    simp only [StoreDocs, hlen, if_true]
    rcases ha : w.AddDocuments docs s with ⟨r, s1⟩
    cases r <;> simp

/-- Witness of C10: nothing is inserted for the empty list; one document on a
store that is down gives one insert and the store's error. -/
theorem StoreDocs_one_insert_witness :
    StoreDocs storeDownWorld [] () = ⟨none, (), []⟩ ∧
      (StoreDocs storeDownWorld [scored "A B" 0] ()).log
        = [Event.AddDocuments [scored "A B" 0]] ∧
      (StoreDocs storeDownWorld [scored "A B" 0] ()).val = some ⟨"connection refused"⟩ := by
  have h0 := (StoreDocs_one_insert storeDownWorld [] ()).1 rfl
  have h1 := (StoreDocs_one_insert storeDownWorld [scored "A B" 0] ()).2 (by simp)
  exact ⟨h0, h1.1, h1.2.2.2 ⟨"connection refused"⟩ rfl⟩

/-! ## Errors of retrieval -/

/-- Counterexample to C7: when the store's search fails with the error
`connection refused`, the error `UseRetriaver` reports is not that error. -/
theorem UseRetriaver_error_not_unchanged :
    (storeDownWorld.SimilaritySearch "q" 5 ⟨scoreThreshold⟩ ()).1
        = Except.error ⟨"connection refused"⟩ ∧
      (UseRetriaver storeDownWorld "q" 5 ()).val ≠ Except.error ⟨"connection refused"⟩ := by
  refine ⟨rfl, ?_⟩
  rw [UseRetriaver_val_eq]
  simp only [storeDownWorld, fixedWorld, retrievalError]
  intro h
  have h2 := congrArg GoError.Error (Except.error.inj h)
  revert h2
  decide

/-- Claim C7, amended.  `UseRetriaver` returns an error exactly when the store's
search returns one; it then returns no documents and a new error whose text is
the text of the search's error prefixed with `检索文档失败: `; otherwise it
returns exactly the documents the search produced, with a nil error. -/
theorem UseRetriaver_wraps_error {σ : Type} (w : World σ) (query : String) (topk : Int)
    (s : σ) :
    ((∃ e, (UseRetriaver w query topk s).val = Except.error e) ↔
        ∃ err, (w.SimilaritySearch query topk ⟨scoreThreshold⟩ s).1 = Except.error err) ∧
      (∀ err, (w.SimilaritySearch query topk ⟨scoreThreshold⟩ s).1 = Except.error err →
        (UseRetriaver w query topk s).val
          = Except.error ⟨"检索文档失败: " ++ err.Error⟩) ∧
      (∀ docs, (w.SimilaritySearch query topk ⟨scoreThreshold⟩ s).1 = Except.ok docs →
        (UseRetriaver w query topk s).val = Except.ok docs) := by
  rw [UseRetriaver_val_eq]
  cases h : (w.SimilaritySearch query topk ⟨scoreThreshold⟩ s).1 <;> simp [retrievalError]

/-- Witness of amended C7: a search failing with `connection refused` is
reported as `检索文档失败: connection refused`. -/
theorem UseRetriaver_wraps_error_witness :
    (UseRetriaver storeDownWorld "q" 5 ()).val
      = Except.error ⟨"检索文档失败: connection refused"⟩ :=
  (UseRetriaver_wraps_error storeDownWorld "q" 5 ()).2.1 ⟨"connection refused"⟩ rfl

/-! ## Threshold and document count -/

/-- Counterexample to C9: it is not the case that for every threshold in `[0, 1]`
and every `topk > 0` the search is issued with that threshold; a caller wanting
threshold `1/2` with `topk = 5` gets a search at `0.80`. -/
theorem UseRetriaver_threshold_not_callers :
    ¬ (∀ t : ℚ, 0 ≤ t → t ≤ 1 → ∀ topk : Int, 0 < topk →
        (UseRetriaver tenRecordWorld "q" topk ()).log
          = [Event.SimilaritySearch "q" topk ⟨t⟩]) := by
  intro h
  have h5 := h (1 / 2) (by norm_num) (by norm_num) 5 (by decide)
  rw [UseRetriaver_log_eq] at h5
  simp only [List.cons.injEq, Event.SimilaritySearch.injEq, Options.mk.injEq,
    scoreThreshold] at h5
  norm_num at h5

/-- Claim C9, amended.  `UseRetriaver` takes no threshold from its caller: for
every store, query and `topk` it issues exactly one search, with the fixed
threshold `0.80` and with exactly the caller's `topk` as the document count. -/
theorem UseRetriaver_fixed_threshold {σ : Type} (w : World σ) (query : String) (topk : Int)
    (s : σ) :
    (UseRetriaver w query topk s).log = [Event.SimilaritySearch query topk ⟨4 / 5⟩] ∧
      scoreThreshold = 4 / 5 := by
  have ht : scoreThreshold = 4 / 5 := by norm_num [scoreThreshold]
  rw [UseRetriaver_log_eq, ht]
  exact ⟨rfl, rfl⟩

/-! ## Answer generation -/

/-- Counterexample to C8: when the chain run completes with the empty string,
`GetAnswer` returns the empty string with a nil error. -/
theorem GetAnswer_empty_answer_nil_error :
    (GetAnswer emptyAnswerWorld [scored "r0" 0.95] "q" ()).val = Except.ok "" := by
  rw [GetAnswer_val_eq]
  rfl

/-- Claim C8, amended.  For every model, retrieved-document list and prompt,
`GetAnswer` returns what the chain run returns: the run's answer, empty or not,
with a nil error, or the empty string with the run's error, unchanged. -/
theorem GetAnswer_returns_run_result {σ : Type} (w : World σ) (docRetrieved : List Document)
    (input : String) (s : σ) :
    (GetAnswer w docRetrieved input s).val =
      (w.Run (docRetrieved.map (fun doc => ⟨ChatMessageType.AI, doc.PageContent⟩))
        input temperature s).1 := by
  rw [GetAnswer_val_eq, assembleHistory_messages]

/-! ## The pipeline -/

/-- Claim C6, at the failing run.  When the file cannot be opened and every
other collaborator succeeds, `TextToChunks` fails, yet `main` goes on to call
`StoreDocs`, `UseRetriaver` and `GetAnswer` and ends by printing the answer. -/
theorem main_continues_after_chunking_error :
    (TextToChunks missingFileWorld "./quantstudy.pdf" 1000 500 ()).val
        = Except.error ⟨"open ./quantstudy.pdf: no such file or directory"⟩ ∧
      (main missingFileWorld ()).val = Outcome.printed "answer" ∧
      (main missingFileWorld ()).log =
        [Event.enter Stage.TextToChunks, Event.osOpen "./quantstudy.pdf",
         Event.enter Stage.StoreDocs,
         Event.enter Stage.UseRetriaver, Event.SimilaritySearch prompt 5 ⟨scoreThreshold⟩,
         Event.enter Stage.GetAnswer,
         Event.Run [⟨ChatMessageType.AI, "r0"⟩] prompt temperature] := by
  refine ⟨rfl, rfl, rfl⟩

/-- The three checked stages: on a store that is down, `main` panics with the
error of `StoreDocs` and calls no later stage. -/
theorem main_halts_at_store_error :
    (main storeDownWorld ()).val = Outcome.panic ⟨"connection refused"⟩ ∧
      (main storeDownWorld ()).log =
        [Event.enter Stage.TextToChunks, Event.osOpen "./quantstudy.pdf",
         Event.LoadAndSplit ⟨"doc.txt"⟩ 1000 500,
         Event.enter Stage.StoreDocs, Event.AddDocuments [scored "A B C D" 0]] := by
  refine ⟨rfl, rfl⟩

end RagDemo
